import Mathlib

/-
Shallow embedding of the core feature-engineering and model-lifecycle
pipeline of the NFL game-outcome prediction service:
  - src/ml/models/data_preprocessor.py (DataPreprocessor)
  - src/ml/models/game_predictor.py (GamePredictor)
Machine reals are modelled as rationals; Python dict `.get` defaults are
modelled with Option; Python exceptions are modelled with Except, and a
method that mutates `self` before raising is modelled as returning the
mutated state together with the Except result.
-/

/-- np.mean of a list of rationals: sum divided by length.  The code only
takes means of nonempty lists (it guards the empty case explicitly), so the
division-by-zero convention of ℚ is never load-bearing. -/
def listMean (l : List ℚ) : ℚ := l.sum / l.length

/-- A team reference inside a game record: `game["homeTeam"]` /
`game["awayTeam"]`.  The id is a required key (`["id"]`), the score is read
with `.get("score", 0)`. -/
structure TeamRef where
  id : String
  score : Option ℚ
deriving DecidableEq

/-- The optional `game["stats"]` sub-dict; each field is read with
`.get(key, 0)`. -/
structure GameStatsRec where
  home_yards_total : Option ℚ
  home_turnovers : Option ℚ
  away_yards_total : Option ℚ
  away_turnovers : Option ℚ
deriving DecidableEq

/-- A historical game record as consumed by
DataPreprocessor.calculate_team_stats: required homeTeam/awayTeam with ids,
optional score/stats/winner fields. -/
structure GameRecord where
  homeTeam : TeamRef
  awayTeam : TeamRef
  stats : Option GameStatsRec
  winner : Option String
deriving DecidableEq

/-- The team-relative view of one game that calculate_team_stats appends to
`team_games`. -/
structure TeamGameView where
  is_home : Bool
  points_scored : ℚ
  points_allowed : ℚ
  yards : ℚ
  turnovers : ℚ
  won : Bool
deriving DecidableEq

/-- TeamStats as returned by calculate_team_stats. -/
structure TeamStatsR where
  win_rate : ℚ
  points_scored_avg : ℚ
  points_allowed_avg : ℚ
  yards_per_game : ℚ
  turnover_diff : ℚ
deriving DecidableEq

/-- `game.get("stats", {}).get(key, 0)` for the four stat keys. -/
def statHomeYards (g : GameRecord) : ℚ :=
  ((g.stats.map (·.home_yards_total)).join).getD 0

def statHomeTurnovers (g : GameRecord) : ℚ :=
  ((g.stats.map (·.home_turnovers)).join).getD 0

def statAwayYards (g : GameRecord) : ℚ :=
  ((g.stats.map (·.away_yards_total)).join).getD 0

def statAwayTurnovers (g : GameRecord) : ℚ :=
  ((g.stats.map (·.away_turnovers)).join).getD 0

/-- The filtering loop of calculate_team_stats: for each historical game
record the team-relative view when `team_id` is the home id (first branch)
or else the away id (elif branch); other games contribute nothing. -/
def teamGameViews (historical : List GameRecord) (team_id : String) :
    List TeamGameView :=
  historical.filterMap (fun g =>
    if g.homeTeam.id = team_id then
      some { is_home := true
             points_scored := g.homeTeam.score.getD 0
             points_allowed := g.awayTeam.score.getD 0
             yards := statHomeYards g
             turnovers := statHomeTurnovers g
             won := g.winner = some "home" }
    else if g.awayTeam.id = team_id then
      some { is_home := false
             points_scored := g.awayTeam.score.getD 0
             points_allowed := g.homeTeam.score.getD 0
             yards := statAwayYards g
             turnovers := statAwayTurnovers g
             won := g.winner = some "away" }
    else none)

/-- Python list slice `l[s:]` for an arbitrary (possibly negative) integer
start: a negative start counts from the end and clamps at 0. -/
def pySliceFrom (l : List α) (s : Int) : List α :=
  if 0 ≤ s then l.drop s.toNat
  else l.drop ((l.length : Int) + s).toNat

/-- DataPreprocessor.calculate_team_stats: filter to the team's games, take
the slice `team_games[-last_n_games:]`, return the all-zero stats when that
window is empty and otherwise the arithmetic means of each relative field
(np.mean of the boolean "won" list is the mean of its 0/1 indicators). -/
def calculate_team_stats (historical : List GameRecord) (team_id : String)
    (last_n_games : Int := 5) : TeamStatsR :=
  let team_games := teamGameViews historical team_id
  let recent_games := pySliceFrom team_games (-last_n_games)
  if recent_games.isEmpty then
    { win_rate := 0
      points_scored_avg := 0
      points_allowed_avg := 0
      yards_per_game := 0
      turnover_diff := 0 }
  else
    { win_rate := listMean (recent_games.map (fun g => if g.won then 1 else 0))
      points_scored_avg := listMean (recent_games.map (·.points_scored))
      points_allowed_avg := listMean (recent_games.map (·.points_allowed))
      yards_per_game := listMean (recent_games.map (·.yards))
      turnover_diff := listMean (recent_games.map (·.turnovers)) }

/-- A tweet entry: `t.get("sentiment_score", 0)`. -/
structure TweetRec where
  sentiment_score : Option ℚ
deriving DecidableEq

/-- An analyst opinion: `opinion.get("pick")`, `opinion.get("confidence", 0)`. -/
structure OpinionRec where
  pick : Option String
  confidence : Option ℚ
deriving DecidableEq

/-- The sentiment payload consumed by process_sentiment_data:
`sentiment_data.get("tweets", {}).get("home_team", [])` and friends; each
list defaults to empty when the key chain is absent. -/
structure SentimentPayload where
  tweets_home : List TweetRec := []
  tweets_away : List TweetRec := []
  analyst_opinions : List OpinionRec := []
deriving DecidableEq

/-- SentimentFeatures as returned by process_sentiment_data. -/
structure SentimentFeaturesR where
  home_sentiment_score : ℚ
  away_sentiment_score : ℚ
  analyst_confidence_home : ℚ
  analyst_confidence_away : ℚ
deriving DecidableEq

/-- One step of the analyst-confidence accumulation loop: an opinion whose
pick is "home" adds its confidence to the home total, every other opinion
adds it to the away total. -/
def analystStep (acc : ℚ × ℚ) (o : OpinionRec) : ℚ × ℚ :=
  if o.pick = some "home" then (acc.1 + o.confidence.getD 0, acc.2)
  else (acc.1, acc.2 + o.confidence.getD 0)

/-- DataPreprocessor.process_sentiment_data: per-side means of the tweet
sentiment scores (0 when the list is empty) and the summed analyst
confidences per side. -/
def process_sentiment_data (sd : SentimentPayload) : SentimentFeaturesR :=
  let home_sentiment :=
    if sd.tweets_home.isEmpty then 0
    else listMean (sd.tweets_home.map (fun t => t.sentiment_score.getD 0))
  let away_sentiment :=
    if sd.tweets_away.isEmpty then 0
    else listMean (sd.tweets_away.map (fun t => t.sentiment_score.getD 0))
  let conf := sd.analyst_opinions.foldl analystStep (0, 0)
  { home_sentiment_score := home_sentiment
    away_sentiment_score := away_sentiment
    analyst_confidence_home := conf.1
    analyst_confidence_away := conf.2 }

/-- The game record consumed by prepare_game_features.  Required keys
(homeTeam/awayTeam ids, a well-formed date — the code parses
`game_data["date"]` with strptime and discards the result, so structurally
valid input is represented by a pre-parsed (year, month, day) triple per the
validation boundary of spec §9) are structure fields; the `.get`-defaulted
keys are Options. -/
structure GameDataRec where
  homeTeam : TeamRef
  awayTeam : TeamRef
  date : Nat × Nat × Nat
  sentiment_data : Option SentimentPayload
  is_primetime : Option Bool
  is_division_game : Option Bool
  home_rest_days : Option ℚ
  away_rest_days : Option ℚ
deriving DecidableEq

/-- DataPreprocessor.prepare_game_features: home/away rolling stats with the
default window of 5, sentiment features from
`game_data.get("sentiment_data", {})`, context scalars with their defaults,
yards-per-play as yards_per_game / 60, assembled into the ordered named
feature dict (Python dicts preserve insertion order). -/
def prepare_game_features (game_data : GameDataRec)
    (historical_games : List GameRecord) : List (String × ℚ) :=
  let home_stats := calculate_team_stats historical_games game_data.homeTeam.id
  let away_stats := calculate_team_stats historical_games game_data.awayTeam.id
  let sf := process_sentiment_data (game_data.sentiment_data.getD {})
  [ ("home_win_rate", home_stats.win_rate),
    ("away_win_rate", away_stats.win_rate),
    ("home_points_scored_avg", home_stats.points_scored_avg),
    ("away_points_scored_avg", away_stats.points_scored_avg),
    ("home_points_allowed_avg", home_stats.points_allowed_avg),
    ("away_points_allowed_avg", away_stats.points_allowed_avg),
    ("home_yards_per_play", home_stats.yards_per_game / 60),
    ("away_yards_per_play", away_stats.yards_per_game / 60),
    ("home_turnover_diff", home_stats.turnover_diff),
    ("away_turnover_diff", away_stats.turnover_diff),
    ("home_sentiment_score", sf.home_sentiment_score),
    ("away_sentiment_score", sf.away_sentiment_score),
    ("analyst_confidence_home", sf.analyst_confidence_home),
    ("analyst_confidence_away", sf.analyst_confidence_away),
    ("is_division_game", if game_data.is_division_game.getD false then 1 else 0),
    ("is_primetime", if game_data.is_primetime.getD false then 1 else 0),
    ("home_rest_days", game_data.home_rest_days.getD 7),
    ("away_rest_days", game_data.away_rest_days.getD 7) ]

/-- Errors surfaced (raised) by the predictor pipeline.  They stand for the
concrete Python exceptions noted on each constructor. -/
inductive MLError
  /-- sklearn ValueError: fitting a scaler on 0 samples. -/
  | emptyData
  /-- sklearn NotFittedError: transform or predict before any fit. -/
  | notFitted
  /-- sklearn ValueError from train_test_split: inconsistent lengths or an
  empty train/test partition. -/
  | badSplit
  /-- sklearn ValueError: classifier fit on fewer than two classes. -/
  | singleClass
  /-- joblib.load on a missing artifact path (FileNotFoundError); the spec
  maps this surfaced failure to NotReadyError. -/
  | storeMissing
  /-- AttributeError: predict_proba on a None model. -/
  | noModel
deriving DecidableEq

/-- The fitted state of sklearn's StandardScaler: per-column mean_ and var_
(scale_ is derived from var_). -/
structure ScalerParams where
  mean_ : List ℚ
  var_ : List ℚ
deriving DecidableEq

/-- Per-column means of a feature matrix (StandardScaler mean_). -/
def colMeans (rows : List (List ℚ)) : List ℚ :=
  rows.transpose.map listMean

/-- Per-column variances of a feature matrix (StandardScaler var_). -/
def colVars (rows : List (List ℚ)) : List ℚ :=
  rows.transpose.map (fun c => listMean (c.map (fun x => (x - listMean c) ^ 2)))

/-- StandardScaler scale_: the square root of the column variance, with
sklearn's zero-handling (a zero variance scales by 1).  ℚ has no exact
square root in general; Rat.sqrt is the stand-in (exact on perfect squares).
No claim proved below depends on the numeric value of the scale, only on
which data the parameters were fitted from and on the transform being the
same function wherever it is reused. -/
def scaleOf (v : ℚ) : ℚ :=
  if v = 0 then 1 else Rat.sqrt v

/-- StandardScaler.transform on one row: (x - mean_) / scale_ per column. -/
def transformRow (p : ScalerParams) (x : List ℚ) : List ℚ :=
  (x.zip (p.mean_.zip p.var_)).map (fun xmv => (xmv.1 - xmv.2.1) / scaleOf xmv.2.2)

/-- The fitted classifier capability.  The gradient-boosted ensemble that
sklearn learns is a black box to this development (spec §1 treats the
classifier as the capability train(X,y) → state, predict_proba(X,state) →
probabilities); only how GamePredictor consumes it matters: for the binary
problem sklearn exposes P(class 1) and sets P(class 0) = 1 − P(class 1), and
predict is the argmax of the two (class 1 exactly when P(class 1) > 1/2). -/
structure FittedGBC where
  proba1 : List ℚ → ℚ

/-- An in-memory GradientBoostingClassifier object: freshly constructed
(unfitted — using it raises NotFittedError) or fitted. -/
inductive GBCModel
  /-- `GradientBoostingClassifier(...)` before `.fit`. -/
  | unfitted
  /-- A classifier that has been fitted. -/
  | fitted (f : FittedGBC)

/-- The learned scoring function itself is opaque (spec non-goal); this
stand-in records only that fitting consumes the scaled train partition and
its labels and fails upstream when fewer than two classes are present.  The
constant base-rate probability mirrors the classifier's initial estimator;
no claim below depends on the returned function's values. -/
def gbcFit (Xtr : List (List ℚ)) (ytr : List ℚ) : FittedGBC :=
  { proba1 := fun _ => listMean ytr + 0 * (Xtr.length : ℚ) }

/-- sklearn's binary prediction: class 1 exactly when P(class 1) exceeds
1/2 (the argmax over [1 − p1, p1], ties resolved to class 0). -/
def gbcPredictClass (f : FittedGBC) (x : List ℚ) : ℚ :=
  if f.proba1 x > 1 / 2 then 1 else 0

/-- The persisted model_data dict written by save_model / read by
load_model: model, scaler and feature_columns travel together. -/
structure ModelArtifact where
  model : Option GBCModel
  scaler : Option ScalerParams
  feature_columns : List String

/-- The mutable state of a GamePredictor object together with the artifact
file at its model_path (None before any save).  `scaler = none` is the
freshly constructed, never-fitted StandardScaler. -/
structure PredictorState where
  model : Option GBCModel
  scaler : Option ScalerParams
  feature_columns : List String
  store : Option ModelArtifact

namespace GamePredictor

/-- The canonical 18-name feature schema set in GamePredictor.__init__. -/
def featureColumnNames : List String :=
  [ "home_win_rate",
    "away_win_rate",
    "home_points_scored_avg",
    "away_points_scored_avg",
    "home_points_allowed_avg",
    "away_points_allowed_avg",
    "home_yards_per_play",
    "away_yards_per_play",
    "home_turnover_diff",
    "away_turnover_diff",
    "home_sentiment_score",
    "away_sentiment_score",
    "analyst_confidence_home",
    "analyst_confidence_away",
    "is_division_game",
    "is_primetime",
    "home_rest_days",
    "away_rest_days" ]

/-- GamePredictor.__init__ with an empty artifact store. -/
def initState : PredictorState :=
  { model := none
    scaler := none
    feature_columns := featureColumnNames
    store := none }

/-- GamePredictor.preprocess_data.  Rows are the feature matrix
`data[self.feature_columns]` (columns already in canonical order);
`labels = some ys` is a DataFrame that has the "home_team_won" column.
With labels present the scaler is refit in place on the WHOLE matrix
(`self.scaler.fit_transform(X)`); without labels the previously fitted
parameters are applied (`self.scaler.transform(X)`).  Returns the possibly
mutated state alongside the scaled matrix or the raised error. -/
def preprocess_data (st : PredictorState) (rows : List (List ℚ))
    (labels : Option (List ℚ)) :
    PredictorState × Except MLError (List (List ℚ)) :=
  match labels with
  | some _ =>
    if rows.isEmpty then (st, Except.error MLError.emptyData)
    else
      let p : ScalerParams := { mean_ := colMeans rows, var_ := colVars rows }
      ({ st with scaler := some p }, Except.ok (rows.map (transformRow p)))
  | none =>
    match st.scaler with
    | none => (st, Except.error MLError.notFitted)
    | some p => (st, Except.ok (rows.map (transformRow p)))

/-- The number of test samples train_test_split reserves for
test_size = 0.2: ceil(n / 5). -/
def nTestOf (n : Nat) : Nat := (n + 4) / 5

/-- Applying the shuffle permutation of row indices to an array
(`X[permutation]`). -/
def permSelect (perm : List Nat) (l : List α) : List α :=
  perm.filterMap (fun i => l.get? i)

/-- The test partition: the first ceil(n/5) rows of the shuffled order
(n the full sample count). -/
def testPart (perm : List Nat) (n : Nat) (l : List α) : List α :=
  (permSelect perm l).take (nTestOf n)

/-- The train partition: the remaining rows of the shuffled order. -/
def trainPart (perm : List Nat) (n : Nat) (l : List α) : List α :=
  (permSelect perm l).drop (nTestOf n)

/-- sklearn accuracy_score of the class predictions against the labels. -/
def accuracyScore (f : FittedGBC) (Xs : List (List ℚ)) (ys : List ℚ) : ℚ :=
  listMean (List.zipWith
    (fun x y => if gbcPredictClass f x = y then (1 : ℚ) else 0) Xs ys)

/-- The metrics dict returned by train.  The per-class classification_report
is not touched by any claim and is omitted from the embedding. -/
structure TrainMetrics where
  accuracy : ℚ
deriving DecidableEq

/-- GamePredictor.save_model: write {model, scaler, feature_columns} as one
artifact to the model_path (the success path of joblib.dump). -/
def save_model (st : PredictorState) : PredictorState :=
  { st with
      store := some { model := st.model, scaler := st.scaler,
                      feature_columns := st.feature_columns } }

/-- GamePredictor.load_model: joblib.load from the model_path; a missing
artifact raises (FileNotFoundError), a present one replaces model, scaler
and feature_columns in memory. -/
def load_model (st : PredictorState) : PredictorState × Except MLError Unit :=
  match st.store with
  | none => (st, Except.error MLError.storeMissing)
  | some a =>
    ({ st with model := a.model, scaler := a.scaler,
               feature_columns := a.feature_columns },
     Except.ok ())

/-- GamePredictor.train.  Mirrors the Python statement order, including the
in-place mutations that survive a raised exception:
preprocess_data refits the scaler on the FULL matrix (before any split);
train_test_split (test_size = 0.2, random_state = 42) separates the first
ceil(n/5) rows of the seeded shuffle as test — the seeded permutation is a
fixed function of n opaque to this embedding, so it is passed explicitly;
`self.model = GradientBoostingClassifier(...)` replaces the in-memory model
with a fresh unfitted one BEFORE fit; fit raises on a single-class y_train;
on success the model is fitted, evaluated on the test partition, persisted
via save_model, and the metrics are returned. -/
def train (st : PredictorState) (rows : List (List ℚ)) (labels : List ℚ)
    (perm : List Nat) : PredictorState × Except MLError TrainMetrics :=
  match preprocess_data st rows (some labels) with
  | (st1, Except.error e) => (st1, Except.error e)
  | (st1, Except.ok Xs) =>
    let n := Xs.length
    if labels.length ≠ n ∨ nTestOf n = 0 ∨ n - nTestOf n = 0 then
      (st1, Except.error MLError.badSplit)
    else
      let Xtrain := trainPart perm n Xs
      let Xtest := testPart perm n Xs
      let ytrain := trainPart perm n labels
      let ytest := testPart perm n labels
      let st2 := { st1 with model := some GBCModel.unfitted }
      if ytrain.dedup.length < 2 then
        (st2, Except.error MLError.singleClass)
      else
        let f := gbcFit Xtrain ytrain
        let st3 := { st2 with model := some (GBCModel.fitted f) }
        let st4 := save_model st3
        (st4, Except.ok { accuracy := accuracyScore f Xtest ytest })

/-- The prediction dict returned by predict. -/
structure PredOut where
  home_team_win_probability : ℚ
  away_team_win_probability : ℚ
  predicted_winner : String
  confidence : ℚ
deriving DecidableEq

/-- GamePredictor.predict on a single feature vector (the game_data dict
holds exactly the feature columns, so the built DataFrame has no
"home_team_won" column and preprocess_data takes the transform-only
branch).  If the in-memory model is None, load_model is attempted first and
its failure propagates. -/
def predict (st : PredictorState) (fv : List ℚ) :
    PredictorState × Except MLError PredOut :=
  match (if st.model.isNone then load_model st else (st, Except.ok ())) with
  | (st1, Except.error e) => (st1, Except.error e)
  | (st1, Except.ok _) =>
    match st1.scaler with
    | none => (st1, Except.error MLError.notFitted)
    | some p =>
      let x := transformRow p fv
      match st1.model with
      | none => (st1, Except.error MLError.noModel)
      | some GBCModel.unfitted => (st1, Except.error MLError.notFitted)
      | some (GBCModel.fitted f) =>
        let p1 := f.proba1 x
        (st1, Except.ok
          { home_team_win_probability := p1
            away_team_win_probability := 1 - p1
            predicted_winner := if gbcPredictClass f x = 1 then "home" else "away"
            confidence := max (1 - p1) p1 })

end GamePredictor

/-- Confidence of one analyst opinion with the `.get("confidence", 0)`
default. -/
def confOf (o : OpinionRec) : ℚ := o.confidence.getD 0

/-- Following the spec's words (§4.2): per-side tweet-sentiment means (0
when a side's list is empty or absent), and per-side analyst-confidence
SUMS, where an opinion is attributed to home exactly when its pick is
"home" and to away otherwise. -/
def specSentimentExtract (sd : SentimentPayload) : SentimentFeaturesR :=
  { home_sentiment_score :=
      if sd.tweets_home.isEmpty then 0
      else listMean (sd.tweets_home.map (fun t => t.sentiment_score.getD 0))
    away_sentiment_score :=
      if sd.tweets_away.isEmpty then 0
      else listMean (sd.tweets_away.map (fun t => t.sentiment_score.getD 0))
    analyst_confidence_home :=
      ((sd.analyst_opinions.filter (fun o => o.pick = some "home")).map confOf).sum
    analyst_confidence_away :=
      ((sd.analyst_opinions.filter (fun o => ¬ o.pick = some "home")).map confOf).sum }


/-- Concrete data used by the witnesses and counterexamples below. -/
def c5game : GameRecord :=
  { homeTeam := { id := "A", score := some 21 }
    awayTeam := { id := "B", score := some 14 }
    stats := none
    winner := some "home" }

def c10game : GameRecord :=
  { homeTeam := { id := "A", score := some 24 }
    awayTeam := { id := "B", score := some 17 }
    stats := none
    winner := some "home" }

def c1rows : List (List ℚ) := [[0], [0], [0], [0], [10]]

def c1labels : List ℚ := [0, 1, 0, 1, 0]

def w1rows : List (List ℚ) := [[1], [2], [3], [4], [5]]

def w1labels : List ℚ := [0, 1, 0, 1, 0]

def c2prior : PredictorState :=
  { model := some (GBCModel.fitted { proba1 := fun _ => 1 / 2 })
    scaler := some { mean_ := [5], var_ := [2] }
    feature_columns := GamePredictor.featureColumnNames
    store := none }

def c2rows : List (List ℚ) := [[1], [2], [3], [4], [5]]

def c2labels : List ℚ := [0, 0, 0, 0, 0]

def c3state : PredictorState :=
  { model := some (GBCModel.fitted { proba1 := fun _ => 7 / 10 })
    scaler := some { mean_ := [0], var_ := [1] }
    feature_columns := GamePredictor.featureColumnNames
    store := none }

def c7state : PredictorState :=
  { model := some (GBCModel.fitted { proba1 := fun _ => 7 / 10 })
    scaler := some { mean_ := [0], var_ := [1] }
    feature_columns := GamePredictor.featureColumnNames
    store := none }

def c9state : PredictorState :=
  { model := some (GBCModel.fitted { proba1 := fun _ => 3 / 5 })
    scaler := some { mean_ := [1], var_ := [4] }
    feature_columns := GamePredictor.featureColumnNames
    store := none }

lemma analystStep_foldl (ops : List OpinionRec) (h a : ℚ) :
    ops.foldl analystStep (h, a) =
      (h + ((ops.filter (fun o => o.pick = some "home")).map confOf).sum,
       a + ((ops.filter (fun o => ¬ o.pick = some "home")).map confOf).sum) := by
  induction ops generalizing h a with
  | nil => simp
  | cons o rest ih =>
    by_cases hp : o.pick = some "home"
    · simp [analystStep, hp, ih, confOf, List.filter_cons, Prod.ext_iff]
      ring
    · simp [analystStep, hp, ih, confOf, List.filter_cons, Prod.ext_iff]
      ring

lemma pySliceFrom_nil (s : Int) : pySliceFrom ([] : List α) s = [] := by
  simp [pySliceFrom]

lemma preprocess_data_fit (st : PredictorState) (rows : List (List ℚ))
    (labels : List ℚ) (hne : rows ≠ []) :
    GamePredictor.preprocess_data st rows (some labels) =
      ({ st with scaler := some { mean_ := colMeans rows, var_ := colVars rows } },
       Except.ok (rows.map
         (transformRow { mean_ := colMeans rows, var_ := colVars rows }))) := by
  simp [GamePredictor.preprocess_data, hne]

/-- The scaler parameters left in memory by train are always the fit on the
FULL feature matrix (the fit happens inside preprocess_data, before the
train/test split), on every control path. -/
lemma train_scaler_full (st : PredictorState) (rows : List (List ℚ))
    (labels : List ℚ) (perm : List Nat) (hne : rows ≠ []) :
    (GamePredictor.train st rows labels perm).1.scaler =
      some { mean_ := colMeans rows, var_ := colVars rows } := by
  unfold GamePredictor.train
  rw [preprocess_data_fit st rows labels hne]
  dsimp only
  split
  · rfl
  · split
    · rfl
    · rfl

/-- On a successful train the in-memory model is the classifier fitted on
the train partition of the scaled matrix (scaled with the full-matrix fit)
and the train partition of the labels. -/
lemma train_success_model (st : PredictorState) (rows : List (List ℚ))
    (labels : List ℚ) (perm : List Nat) (hne : rows ≠ [])
    (hok : (GamePredictor.train st rows labels perm).2.toOption.isSome = true) :
    (GamePredictor.train st rows labels perm).1.model =
      some (GBCModel.fitted (gbcFit
        (GamePredictor.trainPart perm rows.length
          (rows.map (transformRow { mean_ := colMeans rows, var_ := colVars rows })))
        (GamePredictor.trainPart perm rows.length labels))) := by
  unfold GamePredictor.train at hok ⊢
  rw [preprocess_data_fit st rows labels hne] at hok ⊢
  dsimp only at hok ⊢
  simp only [List.length_map] at hok ⊢
  split at hok
  · simp [Except.toOption] at hok
  · split at hok
    · simp [Except.toOption] at hok
    · rename_i h1 h2
      rw [if_neg h1, if_neg h2]
      simp [GamePredictor.save_model]

/-- A successful train needs consistent lengths, nonempty partitions and at
least two classes in the shuffled train labels. -/
lemma train_success_of (st : PredictorState) (rows : List (List ℚ))
    (labels : List ℚ) (perm : List Nat) (hne : rows ≠ [])
    (hlen : labels.length = rows.length)
    (hnT : GamePredictor.nTestOf rows.length ≠ 0)
    (hnTr : rows.length - GamePredictor.nTestOf rows.length ≠ 0)
    (hcls : ¬ (GamePredictor.trainPart perm rows.length labels).dedup.length < 2) :
    (GamePredictor.train st rows labels perm).2.toOption.isSome = true := by
  unfold GamePredictor.train
  rw [preprocess_data_fit st rows labels hne]
  dsimp only
  simp only [List.length_map]
  rw [if_neg (by push_neg; exact ⟨hlen, hnT, hnTr⟩), if_neg hcls]
  rfl

lemma dedup_len_lt_two_of_all_zero (l : List ℚ) (hz : ∀ y ∈ l, y = 0) :
    l.dedup.length < 2 := by
  rcases hd : l.dedup with _ | ⟨a, _ | ⟨b, t⟩⟩
  · simp
  · simp
  · exfalso
    have hnd := l.nodup_dedup
    rw [hd] at hnd
    have ha : a ∈ l := l.dedup_subset (by rw [hd]; simp)
    have hb : b ∈ l := l.dedup_subset (by rw [hd]; simp)
    have hab : a = b := by rw [hz a ha, hz b hb]
    rw [List.nodup_cons] at hnd
    exact hnd.1 (by simp [hab])

/-- Every element of a train partition comes from the original list. -/
lemma trainPart_subset (perm : List Nat) (n : Nat) (l : List α) :
    ∀ y ∈ GamePredictor.trainPart perm n l, y ∈ l := by
  intro y hy
  have h1 : y ∈ GamePredictor.permSelect perm l := List.drop_subset _ _ hy
  unfold GamePredictor.permSelect at h1
  rcases List.mem_filterMap.mp h1 with ⟨i, _, hi⟩
  exact List.get?_mem hi

/-- Training on an all-zero (single-class) label set: the split succeeds
for at least two samples, the classifier fit then raises, and the state at
that moment has the refit scaler, a fresh unfitted model, and an untouched
store. -/
lemma train_single_class (st : PredictorState) (rows : List (List ℚ))
    (labels : List ℚ) (perm : List Nat)
    (hlen : labels.length = rows.length) (h2 : 2 ≤ rows.length)
    (hz : ∀ y ∈ labels, y = 0) :
    GamePredictor.train st rows labels perm =
      ({ st with scaler := some { mean_ := colMeans rows, var_ := colVars rows },
                 model := some GBCModel.unfitted },
       Except.error MLError.singleClass) := by
  have hne : rows ≠ [] := by
    intro h
    rw [h] at h2
    simp at h2
  unfold GamePredictor.train
  rw [preprocess_data_fit st rows labels hne]
  dsimp only
  simp only [List.length_map]
  rw [if_neg (by
    push_neg
    refine ⟨hlen, ?_, ?_⟩ <;> · unfold GamePredictor.nTestOf; omega)]
  rw [if_pos (dedup_len_lt_two_of_all_zero _ (fun y hy =>
    hz y (trainPart_subset perm rows.length labels y hy)))]

/-- Selecting rows along a permutation of all the indices permutes the
rows: X[permutation] is a rearrangement of X. -/
lemma permSelect_range (l : List α) :
    GamePredictor.permSelect (List.range l.length) l = l := by
  induction l with
  | nil => rfl
  | cons a t ih =>
    unfold GamePredictor.permSelect at ih ⊢
    rw [List.length_cons, List.range_succ_eq_map, List.filterMap_cons,
      List.filterMap_map]
    simpa [Function.comp_def] using ih

lemma permSelect_perm (l : List α) (p : List Nat)
    (hp : p.Perm (List.range l.length)) :
    (GamePredictor.permSelect p l).Perm l := by
  have h1 : (GamePredictor.permSelect p l).Perm
      (GamePredictor.permSelect (List.range l.length) l) :=
    hp.filterMap _
  rw [permSelect_range] at h1
  exact h1

/-- C4: for every game record and every list of historical games,
prepare_game_features returns exactly 18 named features whose names and
order match the canonical schema held by the model
(GamePredictor.featureColumnNames), regardless of input. -/
theorem c4_feature_schema (g : GameDataRec) (hist : List GameRecord) :
    (prepare_game_features g hist).map Prod.fst = GamePredictor.featureColumnNames ∧
    (prepare_game_features g hist).length = 18 := by
  constructor <;> rfl

/-- C5: for every window size at least 1 and every team that appears as
neither home nor away in any historical game, calculate_team_stats returns
the all-zero TeamStats (and, being a total function, never fails). -/
theorem c5_zero_matching_games (games : List GameRecord) (team_id : String)
    (n : Int) (_hn : 1 ≤ n)
    (habs : ∀ g ∈ games, g.homeTeam.id ≠ team_id ∧ g.awayTeam.id ≠ team_id) :
    calculate_team_stats games team_id n =
      { win_rate := 0, points_scored_avg := 0, points_allowed_avg := 0,
        yards_per_game := 0, turnover_diff := 0 } := by
  have hviews : teamGameViews games team_id = [] := by
    apply List.filterMap_eq_nil_iff.mpr
    intro g hg
    rcases habs g hg with ⟨h1, h2⟩
    simp [h1, h2]
  simp [calculate_team_stats, hviews, pySliceFrom_nil]

theorem c5_zero_matching_games_witness :
    (1 : Int) ≤ 5 ∧
    (∀ g ∈ [c5game], g.homeTeam.id ≠ "Z" ∧ g.awayTeam.id ≠ "Z") ∧
    calculate_team_stats [c5game] "Z" 5 =
      { win_rate := 0, points_scored_avg := 0, points_allowed_avg := 0,
        yards_per_game := 0, turnover_diff := 0 } :=
  ⟨by decide, by decide,
    c5_zero_matching_games [c5game] "Z" 5 (by decide) (by decide)⟩

/-- C10: with window_size = 0 the slice team_games[-0:] is team_games[0:],
i.e. the ENTIRE filtered history, so whenever the team has at least one
matching game the window is not empty and the returned stats are the means
over the team's entire filtered history. -/
theorem c10_window_zero_full_history (games : List GameRecord) (team_id : String)
    (hne : teamGameViews games team_id ≠ []) :
    pySliceFrom (teamGameViews games team_id) (-(0 : Int)) =
      teamGameViews games team_id ∧
    calculate_team_stats games team_id 0 =
      { win_rate := listMean ((teamGameViews games team_id).map
          (fun g => if g.won then 1 else 0))
        points_scored_avg := listMean ((teamGameViews games team_id).map
          (·.points_scored))
        points_allowed_avg := listMean ((teamGameViews games team_id).map
          (·.points_allowed))
        yards_per_game := listMean ((teamGameViews games team_id).map (·.yards))
        turnover_diff := listMean ((teamGameViews games team_id).map
          (·.turnovers)) } := by
  refine ⟨by simp [pySliceFrom], ?_⟩
  simp [calculate_team_stats, pySliceFrom, hne]

theorem c10_window_zero_full_history_witness :
    teamGameViews [c10game] "A" ≠ [] ∧
    (pySliceFrom (teamGameViews [c10game] "A") (-(0 : Int)) =
        teamGameViews [c10game] "A" ∧
      calculate_team_stats [c10game] "A" 0 =
        { win_rate := listMean ((teamGameViews [c10game] "A").map
            (fun g => if g.won then 1 else 0))
          points_scored_avg := listMean ((teamGameViews [c10game] "A").map
            (·.points_scored))
          points_allowed_avg := listMean ((teamGameViews [c10game] "A").map
            (·.points_allowed))
          yards_per_game := listMean ((teamGameViews [c10game] "A").map (·.yards))
          turnover_diff := listMean ((teamGameViews [c10game] "A").map
            (·.turnovers)) }) :=
  ⟨by decide, c10_window_zero_full_history [c10game] "A" (by decide)⟩

/-- C1 is FALSE of the code: the scaler fit happens inside preprocess_data
on the full feature matrix, BEFORE the train/test split.  On the dataset
c1rows the fitted mean_ is the full-matrix mean [2]; train succeeds under
the identity shuffle, the identity shuffle's train partition has column
mean 5/2 ≠ 2, and for EVERY permutation the seeded shuffle of
train_test_split could be, the train partition is four of the five rows
{0,0,0,0,10}, whose feature mean is 0 or 5/2 — never the fitted 2.  The
fitted parameters therefore are not those of the train partition and do
depend on the held-out row. -/
theorem c1_counterexample :
    (GamePredictor.train GamePredictor.initState c1rows c1labels
        [0, 1, 2, 3, 4]).2.toOption.isSome = true ∧
    (GamePredictor.train GamePredictor.initState c1rows c1labels
        [0, 1, 2, 3, 4]).1.scaler.map ScalerParams.mean_ = some [2] ∧
    colMeans (GamePredictor.trainPart [0, 1, 2, 3, 4] c1rows.length c1rows) =
      [5 / 2] ∧
    (∀ p : List Nat, p.Perm [0, 1, 2, 3, 4] →
      (GamePredictor.train GamePredictor.initState c1rows c1labels
          p).1.scaler.map ScalerParams.mean_ ≠
        some [listMean ((GamePredictor.trainPart p c1rows.length c1rows).map
          (fun r => r.headD 0))]) := by
  have hne : c1rows ≠ [] := by simp [c1rows]
  have hmean : colMeans c1rows = [2] := by
    have ht : c1rows.transpose = [[0, 0, 0, 0, 10]] := rfl
    rw [colMeans, ht]
    norm_num [listMean]
  refine ⟨?_, ?_, ?_, ?_⟩
  · exact train_success_of _ _ _ _ hne rfl (by decide) (by decide) (by decide)
  · rw [train_scaler_full _ _ _ _ hne]
    simp [hmean]
  · have ht : GamePredictor.trainPart [0, 1, 2, 3, 4] c1rows.length c1rows =
        [[0], [0], [0], [10]] := rfl
    rw [ht]
    have ht2 : List.transpose [[(0 : ℚ)], [0], [0], [10]] = [[0, 0, 0, 10]] := rfl
    rw [colMeans, ht2]
    norm_num [listMean]
  · intro p hp
    rw [train_scaler_full _ _ _ _ hne]
    have hperm : (GamePredictor.permSelect p c1rows).Perm c1rows := by
      apply permSelect_perm
      simpa [c1rows] using hp
    obtain ⟨r0, t, hst⟩ : ∃ r0 t, GamePredictor.permSelect p c1rows = r0 :: t := by
      cases hq : GamePredictor.permSelect p c1rows with
      | nil =>
        rw [hq] at hperm
        have := hperm.length_eq
        simp [c1rows] at this
      | cons a b => exact ⟨a, b, rfl⟩
    have htrain : GamePredictor.trainPart p c1rows.length c1rows = t := by
      unfold GamePredictor.trainPart
      rw [hst]
      rfl
    have hsum : r0.headD 0 + (t.map (fun r => r.headD (0 : ℚ))).sum = 10 := by
      have h1 := ((hperm.map (fun r => r.headD (0 : ℚ)))).sum_eq
      rw [hst] at h1
      simpa [c1rows] using h1
    have hr0 : r0 = [(0 : ℚ)] ∨ r0 = [(10 : ℚ)] := by
      have hmem : r0 ∈ c1rows := hperm.mem_iff.mp (by rw [hst]; simp)
      simpa [c1rows] using hmem
    have htl : t.length = 4 := by
      have hl := hperm.length_eq
      rw [hst] at hl
      simp [c1rows] at hl
      omega
    rw [htrain, hmean]
    have hmt : listMean (t.map (fun r => r.headD 0)) = (10 - r0.headD 0) / 4 := by
      rw [listMean, List.length_map, htl]
      have hts : (t.map (fun r => r.headD (0 : ℚ))).sum = 10 - r0.headD 0 := by
        linarith
      rw [hts]
      norm_num
    have hfin : listMean (t.map (fun r => r.headD 0)) ≠ 2 := by
      rcases hr0 with h | h <;> rw [hmt, h] <;> norm_num
    simp only [Option.map_some', ne_eq, Option.some.injEq, List.cons.injEq,
      and_true]
    intro hcontra
    exact hfin hcontra.symm

/-- C1 (amended): for every training dataset, the ScalingState after train
is fitted on the FULL feature matrix — its parameters are the per-column
mean and variance of ALL rows, held-out test rows included — and on success
both partitions come from the full matrix transformed with that fit: the
classifier is fitted on the train partition of the transformed matrix. -/
theorem c1_scaler_full_fit (st : PredictorState) (rows : List (List ℚ))
    (labels : List ℚ) (perm : List Nat) (hne : rows ≠ []) :
    (GamePredictor.train st rows labels perm).1.scaler =
      some { mean_ := colMeans rows, var_ := colVars rows } ∧
    ((GamePredictor.train st rows labels perm).2.toOption.isSome = true →
      (GamePredictor.train st rows labels perm).1.model =
        some (GBCModel.fitted (gbcFit
          (GamePredictor.trainPart perm rows.length
            (rows.map (transformRow { mean_ := colMeans rows, var_ := colVars rows })))
          (GamePredictor.trainPart perm rows.length labels)))) :=
  ⟨train_scaler_full st rows labels perm hne,
   fun hok => train_success_model st rows labels perm hne hok⟩

theorem c1_scaler_full_fit_witness :
    w1rows ≠ [] ∧
    ((GamePredictor.train GamePredictor.initState w1rows w1labels
        [0, 1, 2, 3, 4]).1.scaler =
      some { mean_ := colMeans w1rows, var_ := colVars w1rows } ∧
    ((GamePredictor.train GamePredictor.initState w1rows w1labels
        [0, 1, 2, 3, 4]).2.toOption.isSome = true →
      (GamePredictor.train GamePredictor.initState w1rows w1labels
          [0, 1, 2, 3, 4]).1.model =
        some (GBCModel.fitted (gbcFit
          (GamePredictor.trainPart [0, 1, 2, 3, 4] w1rows.length
            (w1rows.map (transformRow
              { mean_ := colMeans w1rows, var_ := colVars w1rows })))
          (GamePredictor.trainPart [0, 1, 2, 3, 4] w1rows.length w1labels))))) :=
  ⟨by simp [w1rows],
   c1_scaler_full_fit GamePredictor.initState w1rows w1labels [0, 1, 2, 3, 4]
     (by simp [w1rows])⟩

/-- C2 is FALSE of the code: on a degenerate all-zero label set the failure
IS surfaced (the classifier fit raises), but before that point train has
already refit the scaler in place on the new data and replaced the
previously held fitted classifier with a fresh unfitted one — for every
permutation the seeded shuffle could be, the prior Ready in-memory state is
NOT left unchanged. -/
theorem c2_counterexample :
    (GamePredictor.train c2prior c2rows c2labels [0, 1, 2, 3, 4]).2 =
      Except.error MLError.singleClass ∧
    (∀ p : List Nat,
      (GamePredictor.train c2prior c2rows c2labels p).2 =
          Except.error MLError.singleClass ∧
        (GamePredictor.train c2prior c2rows c2labels p).1.scaler ≠
          c2prior.scaler ∧
        (GamePredictor.train c2prior c2rows c2labels p).1.model ≠
          c2prior.model) := by
  have key : ∀ p : List Nat,
      (GamePredictor.train c2prior c2rows c2labels p).2 =
          Except.error MLError.singleClass ∧
        (GamePredictor.train c2prior c2rows c2labels p).1.scaler ≠
          c2prior.scaler ∧
        (GamePredictor.train c2prior c2rows c2labels p).1.model ≠
          c2prior.model := ?_
  · exact ⟨(key [0, 1, 2, 3, 4]).1, key⟩
  intro p
  have h := train_single_class c2prior c2rows c2labels p rfl
    (by norm_num [c2rows]) (by decide)
  rw [h]
  refine ⟨rfl, ?_, ?_⟩
  · have hm : colMeans c2rows = [3] := by
      have ht : c2rows.transpose = [[1, 2, 3, 4, 5]] := rfl
      rw [colMeans, ht]
      norm_num [listMean]
    simp only [c2prior]
    intro hcontra
    rw [Option.some.injEq, ScalerParams.mk.injEq] at hcontra
    rw [hm] at hcontra
    have h35 : (3 : ℚ) = 5 := List.cons.injEq .. |>.mp hcontra.1 |>.1
    norm_num at h35
  · simp [c2prior]

/-- C2 (amended): if train fails on a degenerate single-class label set,
the failure is surfaced to the caller (the ValueError from the classifier
fit propagates) and the persisted store artifact is untouched, but the
prior in-memory Ready state is NOT preserved: the scaler has been refit on
the new dataset's full feature matrix and the in-memory classifier has been
replaced by a fresh unfitted one. -/
theorem c2_failure_surfaced_state_clobbered (st : PredictorState)
    (rows : List (List ℚ)) (labels : List ℚ) (perm : List Nat)
    (hlen : labels.length = rows.length) (h2 : 2 ≤ rows.length)
    (hz : ∀ y ∈ labels, y = 0) :
    (GamePredictor.train st rows labels perm).2 =
      Except.error MLError.singleClass ∧
    (GamePredictor.train st rows labels perm).1.scaler =
      some { mean_ := colMeans rows, var_ := colVars rows } ∧
    (GamePredictor.train st rows labels perm).1.model =
      some GBCModel.unfitted ∧
    (GamePredictor.train st rows labels perm).1.store = st.store := by
  rw [train_single_class st rows labels perm hlen h2 hz]
  exact ⟨rfl, rfl, rfl, rfl⟩

theorem c2_failure_surfaced_state_clobbered_witness :
    (c2labels.length = c2rows.length ∧ 2 ≤ c2rows.length ∧
      ∀ y ∈ c2labels, y = 0) ∧
    ((GamePredictor.train c2prior c2rows c2labels [0, 1, 2, 3, 4]).2 =
        Except.error MLError.singleClass ∧
      (GamePredictor.train c2prior c2rows c2labels [0, 1, 2, 3, 4]).1.scaler =
        some { mean_ := colMeans c2rows, var_ := colVars c2rows } ∧
      (GamePredictor.train c2prior c2rows c2labels [0, 1, 2, 3, 4]).1.model =
        some GBCModel.unfitted ∧
      (GamePredictor.train c2prior c2rows c2labels [0, 1, 2, 3, 4]).1.store =
        c2prior.store) :=
  ⟨⟨rfl, by norm_num [c2rows], by decide⟩,
   c2_failure_surfaced_state_clobbered c2prior c2rows c2labels [0, 1, 2, 3, 4]
     rfl (by norm_num [c2rows]) (by decide)⟩

/-- C3: with an in-memory model present, predict only applies the held
scaler's transform and never refits it: the whole in-memory state — in
particular the scaler's fitted parameters — is identical before and after
any predict call. -/
theorem c3_predict_preserves_scaler (st : PredictorState) (fv : List ℚ)
    (m : GBCModel) (hm : st.model = some m) :
    (GamePredictor.predict st fv).1 = st ∧
    (GamePredictor.predict st fv).1.scaler = st.scaler := by
  have h1 : (GamePredictor.predict st fv).1 = st := by
    unfold GamePredictor.predict
    simp only [hm, Option.isNone_some, Bool.false_eq_true, if_false]
    cases hs : st.scaler with
    | none => rfl
    | some p =>
      cases m with
      | unfitted => rfl
      | fitted f => rfl
  exact ⟨h1, by rw [h1]⟩

theorem c3_predict_preserves_scaler_witness :
    c3state.model = some (GBCModel.fitted { proba1 := fun _ => 7 / 10 }) ∧
    ((GamePredictor.predict c3state [1]).1 = c3state ∧
      (GamePredictor.predict c3state [1]).1.scaler = c3state.scaler) :=
  ⟨rfl, c3_predict_preserves_scaler c3state [1] _ rfl⟩

/-- C7: in Ready state, predict returns a result whose two probabilities
sum to exactly 1 (hence within 1e-6), whose confidence equals the maximum
of the two probabilities, and whose predicted_winner is "home" exactly when
the home-class probability exceeds the away-class probability. -/
theorem c7_predict_output (st : PredictorState) (fv : List ℚ)
    (f : FittedGBC) (p : ScalerParams)
    (hm : st.model = some (GBCModel.fitted f)) (hs : st.scaler = some p) :
    ∃ r, (GamePredictor.predict st fv).2 = Except.ok r ∧
      r.home_team_win_probability + r.away_team_win_probability = 1 ∧
      |r.home_team_win_probability + r.away_team_win_probability - 1| ≤
        1 / 1000000 ∧
      r.confidence = max r.home_team_win_probability
        r.away_team_win_probability ∧
      r.predicted_winner =
        (if r.away_team_win_probability < r.home_team_win_probability then
          "home" else "away") := by
  have hr : (GamePredictor.predict st fv).2 = Except.ok
      { home_team_win_probability := f.proba1 (transformRow p fv)
        away_team_win_probability := 1 - f.proba1 (transformRow p fv)
        predicted_winner :=
          if gbcPredictClass f (transformRow p fv) = 1 then "home" else "away"
        confidence := max (1 - f.proba1 (transformRow p fv))
          (f.proba1 (transformRow p fv)) } := by
    unfold GamePredictor.predict
    simp only [hm, Option.isNone_some, Bool.false_eq_true, if_false, hs]
  refine ⟨_, hr, by ring, ?_, max_comm _ _, ?_⟩
  · have hz : f.proba1 (transformRow p fv) +
        (1 - f.proba1 (transformRow p fv)) - 1 = 0 := by ring
    rw [hz, abs_zero]
    norm_num
  · unfold gbcPredictClass
    dsimp only
    by_cases hc : f.proba1 (transformRow p fv) > 1 / 2
    · rw [if_pos hc, if_pos rfl, if_pos (by linarith)]
    · rw [if_neg hc, if_neg (by norm_num), if_neg (by intro h; linarith)]

theorem c7_predict_output_witness :
    c7state.model = some (GBCModel.fitted { proba1 := fun _ => 7 / 10 }) ∧
    c7state.scaler = some { mean_ := [0], var_ := [1] } ∧
    ∃ r, (GamePredictor.predict c7state [1]).2 = Except.ok r ∧
      r.home_team_win_probability + r.away_team_win_probability = 1 ∧
      |r.home_team_win_probability + r.away_team_win_probability - 1| ≤
        1 / 1000000 ∧
      r.confidence = max r.home_team_win_probability
        r.away_team_win_probability ∧
      r.predicted_winner =
        (if r.away_team_win_probability < r.home_team_win_probability then
          "home" else "away") :=
  ⟨rfl, rfl, c7_predict_output c7state [1] _ _ rfl rfl⟩

/-- C8: predict on an Untrained in-memory model first attempts a store
load; with no stored artifact the load failure is surfaced as a hard error
(the spec's NotReadyError) and no prediction is returned. -/
theorem c8_predict_untrained_no_artifact (st : PredictorState) (fv : List ℚ)
    (hm : st.model = none) (hst : st.store = none) :
    (GamePredictor.predict st fv).2 = Except.error MLError.storeMissing := by
  unfold GamePredictor.predict GamePredictor.load_model
  simp [hm, hst]

theorem c8_predict_untrained_no_artifact_witness :
    GamePredictor.initState.model = none ∧
    GamePredictor.initState.store = none ∧
    (GamePredictor.predict GamePredictor.initState [1]).2 =
      Except.error MLError.storeMissing :=
  ⟨rfl, rfl, c8_predict_untrained_no_artifact GamePredictor.initState [1] rfl rfl⟩

/-- C9: save followed by load restores the trained in-memory state
(classifier, scaler, schema) exactly, so predict on the same feature vector
returns identical output. -/
theorem c9_save_load_roundtrip (st : PredictorState) (fv : List ℚ)
    (f : FittedGBC) (hm : st.model = some (GBCModel.fitted f)) :
    (GamePredictor.load_model (GamePredictor.save_model st)).2 = Except.ok () ∧
    (GamePredictor.predict
        (GamePredictor.load_model (GamePredictor.save_model st)).1 fv).2 =
      (GamePredictor.predict st fv).2 := by
  refine ⟨rfl, ?_⟩
  have hload : (GamePredictor.load_model (GamePredictor.save_model st)).1 =
      { st with store := some { model := st.model, scaler := st.scaler,
                                feature_columns := st.feature_columns } } := rfl
  rw [hload]
  unfold GamePredictor.predict
  dsimp only
  simp only [hm, Option.isNone_some, Bool.false_eq_true, if_false]
  cases hs : st.scaler with
  | none => rfl
  | some p => rfl

theorem c9_save_load_roundtrip_witness :
    c9state.model = some (GBCModel.fitted { proba1 := fun _ => 3 / 5 }) ∧
    ((GamePredictor.load_model (GamePredictor.save_model c9state)).2 =
        Except.ok () ∧
      (GamePredictor.predict
          (GamePredictor.load_model (GamePredictor.save_model c9state)).1
          [2]).2 =
        (GamePredictor.predict c9state [2]).2) :=
  ⟨rfl, c9_save_load_roundtrip c9state [2] _ rfl⟩

/-- C6: process_sentiment_data returns the mean of each side's
sentiment_score values (0 when that side's list is empty or absent) and
summed analyst confidences where every opinion whose pick is not "home" is
added to the away total (refinement against the spec-worded extractor), and
on the Scenario B payload it yields {0.8, 0.6, 0.9, 0.0}. -/
theorem c6_sentiment_extract :
    (∀ sd : SentimentPayload, process_sentiment_data sd = specSentimentExtract sd) ∧
    process_sentiment_data
      { tweets_home := [{ sentiment_score := some (4/5) }]
        tweets_away := [{ sentiment_score := some (3/5) }]
        analyst_opinions := [{ pick := some "home", confidence := some (9/10) }] } =
      { home_sentiment_score := 4/5, away_sentiment_score := 3/5,
        analyst_confidence_home := 9/10, analyst_confidence_away := 0 } := by
  constructor
  · intro sd
    unfold process_sentiment_data specSentimentExtract
    rw [analystStep_foldl]
    simp
  · unfold process_sentiment_data
    rw [analystStep_foldl]
    simp [listMean, confOf]

